import Mathlib

/-!
Shallow embedding of `server.js` (Hk41878/Server): a Node HTTP server that
serves a click-counter page and persists an integer count in a JSON file
(`touchcount.json`).  File-system effects are modelled by explicit state
passing over a `FileContent` value describing the data file; the request
handler becomes a pure function from a request, the file state and a flag
saying whether the write syscall succeeds, to a response and the new file
state.
-/

namespace Server

/-- State of the data file `touchcount.json`.  `missing` means the file does
not exist (any read throws); `invalidJson` is non-empty content that
`JSON.parse` rejects; `emptyContent` is the empty string (the code parses
`raw || '\x7b\x7d'`, yielding an object without a `count` field);
`jsonNoCount` is valid JSON whose `count` property is not a number;
`jsonCount n` is a valid JSON object with numeric `count` equal to `n`.
Numbers are modelled as integers: every value the service itself writes is an
integer. -/
inductive FileContent where
  | missing
  | invalidJson
  | emptyContent
  | jsonNoCount
  | jsonCount (n : Int)
  deriving DecidableEq, Repr

/-- Embedding of `readCount` (server.js lines 23-31): read the file, parse
it, and return the numeric `count` field; every failure (missing file, parse
error, empty content, non-numeric field) yields 0. -/
def readCount : FileContent → Int
  | FileContent.jsonCount n => n
  | _ => 0

/-- Embedding of `writeCount` (server.js lines 33-35): overwrite the file
with the JSON object whose `count` field is `n`. -/
def writeCount (n : Int) : FileContent :=
  FileContent.jsonCount n

/-- Embedding of `ensureDataFile` (server.js lines 15-21): if the file is
inaccessible, write a fresh file whose content is the object with `count`
equal to 0; otherwise leave the file untouched. -/
def ensureDataFile : FileContent → FileContent
  | FileContent.missing => FileContent.jsonCount 0
  | file => file

/-- An HTTP request as the handler sees it: the method and the parsed
pathname of the URL. -/
structure Request where
  method : String
  pathname : String
  deriving DecidableEq, Repr

/-- Response body.  `countJson n` stands for the serialized object with a
`count` field equal to `n`; `errorJson msg` for the object with an `error`
field equal to `msg`; `htmlPage` for the static HTML page; `empty` for no
body at all (the bare `res.end()` of the OPTIONS branch). -/
inductive Body where
  | countJson (n : Int)
  | errorJson (msg : String)
  | htmlPage
  | empty
  deriving DecidableEq, Repr

/-- An HTTP response: status code, headers in the order they are set, and
body. -/
structure Response where
  status : Nat
  headers : List (String × String)
  body : Body
  deriving DecidableEq, Repr

/-- The three CORS headers set by `res.setHeader` on every request
(server.js lines 143-145), before any routing. -/
def corsHeaders : List (String × String) :=
  [ ("Access-Control-Allow-Origin", "*"),
    ("Access-Control-Allow-Methods", "GET,POST,OPTIONS"),
    ("Access-Control-Allow-Headers", "Content-Type") ]

/-- The JSON content-type header added by `res.writeHead` on the API, 404
and 500 branches. -/
def jsonHeader : List (String × String) :=
  [("Content-Type", "application/json")]

/-- Embedding of the request handler (server.js lines 139-175).  `writeOk`
says whether the `fsp.writeFile` call inside `writeCount` succeeds; when it
throws, the `catch` block answers 500 (the file state is left as it was:
no claim depends on the file after a failed write).  The branches follow
the source in order: the OPTIONS short-circuit, then `GET /`,
`GET /api/count`, `POST /api/increment`, the 404 fallthrough, and the
`catch` producing the 500 response. -/
def handle (req : Request) (file : FileContent) (writeOk : Bool) :
    Response × FileContent :=
  if req.method = "OPTIONS" then
    (⟨204, corsHeaders, Body.empty⟩, file)
  else if req.pathname = "/" ∧ req.method = "GET" then
    (⟨200, corsHeaders ++ [("Content-Type", "text/html; charset=utf-8")],
      Body.htmlPage⟩, file)
  else if req.pathname = "/api/count" ∧ req.method = "GET" then
    (⟨200, corsHeaders ++ jsonHeader, Body.countJson (readCount file)⟩, file)
  else if req.pathname = "/api/increment" ∧ req.method = "POST" then
    let n := readCount file + 1
    if writeOk then
      (⟨200, corsHeaders ++ jsonHeader, Body.countJson n⟩, writeCount n)
    else
      (⟨500, corsHeaders ++ jsonHeader, Body.errorJson "Server error"⟩, file)
  else
    (⟨404, corsHeaders ++ jsonHeader, Body.errorJson "Not found"⟩, file)

/-- The increment request. -/
def incrementReq : Request := ⟨"POST", "/api/increment"⟩

/-- The count request. -/
def countReq : Request := ⟨"GET", "/api/count"⟩

/-- File state after one successful `POST /api/increment`. -/
def incrementOnce (file : FileContent) : FileContent :=
  (handle incrementReq file true).2

/-- File state after `n` sequential successful `POST /api/increment`
requests, each completing before the next starts. -/
def incrementN : Nat → FileContent → FileContent
  | 0, file => file
  | n + 1, file => incrementN n (incrementOnce file)

/-- A file state is valid when it is a JSON object with an integer `count`
field that is non-negative. -/
def validState (file : FileContent) : Prop :=
  ∃ n : Int, 0 ≤ n ∧ file = FileContent.jsonCount n

/-- States of the data file reachable by the service itself: a fresh start
(no data file, then `ensureDataFile` runs) followed by any sequence of
handled requests, each write either succeeding or failing. -/
inductive Reachable : FileContent → Prop where
  | init : Reachable (ensureDataFile FileContent.missing)
  | step (req : Request) (writeOk : Bool) {file : FileContent} :
      Reachable file → Reachable (handle req file writeOk).2

end Server

namespace Server

/-- Helper: one successful increment raises the stored count by exactly 1,
from any file state. -/
theorem readCount_incrementOnce (file : FileContent) :
    readCount (incrementOnce file) = readCount file + 1 := by
  cases file <;> rfl

/-- Helper: the handler either leaves the file untouched or overwrites it
with the freshly incremented count. -/
theorem handle_file_cases (req : Request) (file : FileContent)
    (writeOk : Bool) :
    (handle req file writeOk).2 = file ∨
      (handle req file writeOk).2 = FileContent.jsonCount (readCount file + 1) := by
  unfold handle
  split_ifs <;> simp [writeCount]

/-- C1: for every request `POST /api/increment` on a file persisting the
counter value `n`, the server reads `n`, persists `n + 1`, and responds
with status 200 and the JSON body whose `count` field is `n + 1`. -/
theorem increment_reads_persists_responds (n : Int) :
    handle incrementReq (FileContent.jsonCount n) true =
      (⟨200, corsHeaders ++ jsonHeader, Body.countJson (n + 1)⟩,
        FileContent.jsonCount (n + 1)) := by
  rfl

/-- C2: calling `POST /api/increment` `n` times sequentially, each call
completing before the next starts and every write succeeding, yields a
final persisted count equal to the initial count plus `n`, whatever the
initial file state. -/
theorem incrementN_adds (n : Nat) (file : FileContent) :
    readCount (incrementN n file) = readCount file + (n : Int) := by
  induction n generalizing file with
  | zero => simp [incrementN]
  | succ k ih =>
      rw [incrementN, ih, readCount_incrementOnce]
      push_cast
      ring

/-- C3: whenever the data file is missing, holds invalid JSON, is empty,
or parses to an object without a numeric `count` field, `readCount`
returns 0 and `GET /api/count` responds 200 with the JSON body whose
`count` field is 0. -/
theorem corrupt_file_reads_zero (file : FileContent)
    (h : file = FileContent.missing ∨ file = FileContent.invalidJson ∨
         file = FileContent.emptyContent ∨ file = FileContent.jsonNoCount) :
    readCount file = 0 ∧
      (handle countReq file true).1 =
        ⟨200, corsHeaders ++ jsonHeader, Body.countJson 0⟩ := by
  rcases h with h | h | h | h <;> subst h <;> exact ⟨rfl, rfl⟩

/-- Witness for C3 at the missing-file state. -/
theorem corrupt_file_reads_zero_witness :
    readCount FileContent.missing = 0 ∧
      (handle countReq FileContent.missing true).1 =
        ⟨200, corsHeaders ++ jsonHeader, Body.countJson 0⟩ :=
  corrupt_file_reads_zero FileContent.missing (Or.inl rfl)

/-- C4: every file state the service itself can reach, starting fresh, is
a valid JSON object with a non-negative integer `count` field, and every
handled request (read, increment, anything else) preserves that
invariant. -/
theorem counter_invariant :
    (∀ file, Reachable file → validState file) ∧
      (∀ (req : Request) (writeOk : Bool) (file : FileContent),
        validState file → validState (handle req file writeOk).2) := by
  have pres : ∀ (req : Request) (writeOk : Bool) (file : FileContent),
      validState file → validState (handle req file writeOk).2 := by
    intro req writeOk file h
    obtain ⟨n, hn, rfl⟩ := h
    rcases handle_file_cases req (FileContent.jsonCount n) writeOk with h2 | h2
    · exact ⟨n, hn, h2⟩
    · exact ⟨n + 1, by omega, h2⟩
  refine ⟨?_, pres⟩
  intro file h
  induction h with
  | init => exact ⟨0, le_refl 0, rfl⟩
  | step req writeOk h ih => exact pres req writeOk _ ih

/-- Witness for C4 at the fresh-start state and a concrete step. -/
theorem counter_invariant_witness :
    validState (ensureDataFile FileContent.missing) ∧
      validState (handle incrementReq (FileContent.jsonCount 0) true).2 :=
  ⟨counter_invariant.1 _ Reachable.init,
    counter_invariant.2 incrementReq true (FileContent.jsonCount 0)
      ⟨0, le_refl 0, rfl⟩⟩

/-- C5: starting the server with no data file creates the file with count
0, and a subsequent `GET /api/count` responds 200 with the JSON body
whose `count` field is 0, leaving the file in place. -/
theorem fresh_start_count_zero :
    ensureDataFile FileContent.missing = FileContent.jsonCount 0 ∧
      handle countReq (ensureDataFile FileContent.missing) true =
        (⟨200, corsHeaders ++ jsonHeader, Body.countJson 0⟩,
          FileContent.jsonCount 0) :=
  ⟨rfl, rfl⟩

/-- C6: every request that is not an OPTIONS request and matches none of
`GET /`, `GET /api/count`, `POST /api/increment` gets a 404 response with
the JSON error body saying Not found, and the file is untouched. -/
theorem unknown_route_404 (req : Request)
    (hopt : req.method ≠ "OPTIONS")
    (hroot : ¬(req.pathname = "/" ∧ req.method = "GET"))
    (hcount : ¬(req.pathname = "/api/count" ∧ req.method = "GET"))
    (hinc : ¬(req.pathname = "/api/increment" ∧ req.method = "POST"))
    (file : FileContent) (writeOk : Bool) :
    handle req file writeOk =
      (⟨404, corsHeaders ++ jsonHeader, Body.errorJson "Not found"⟩, file) := by
  unfold handle
  rw [if_neg hopt, if_neg hroot, if_neg hcount, if_neg hinc]

/-- Witness for C6 at a concrete unknown route. -/
theorem unknown_route_404_witness :
    handle ⟨"GET", "/nope"⟩ FileContent.missing true =
      (⟨404, corsHeaders ++ jsonHeader, Body.errorJson "Not found"⟩,
        FileContent.missing) :=
  unknown_route_404 ⟨"GET", "/nope"⟩ (by decide) (by decide) (by decide)
    (by decide) FileContent.missing true

/-- C7: when the persist step of `POST /api/increment` fails, the server
responds 500 with the JSON error body saying Server error; a read failure
is never surfaced as an error: it is treated as count 0, so
`GET /api/count` on a missing file answers 200 with count 0 and an
increment on a missing file answers 200 with count 1. -/
theorem write_failure_500_read_failure_zero :
    (∀ file : FileContent,
        handle incrementReq file false =
          (⟨500, corsHeaders ++ jsonHeader, Body.errorJson "Server error"⟩,
            file)) ∧
      readCount FileContent.missing = 0 ∧
      (handle countReq FileContent.missing true).1 =
        ⟨200, corsHeaders ++ jsonHeader, Body.countJson 0⟩ ∧
      handle incrementReq FileContent.missing true =
        (⟨200, corsHeaders ++ jsonHeader, Body.countJson 1⟩,
          FileContent.jsonCount 1) := by
  refine ⟨fun file => ?_, rfl, rfl, rfl⟩
  cases file <;> rfl

/-- C8: every response the handler produces, on every route including the
404 and 500 answers, carries the three permissive cross-origin
headers. -/
theorem all_responses_carry_cors (req : Request) (file : FileContent)
    (writeOk : Bool) :
    ("Access-Control-Allow-Origin", "*") ∈ (handle req file writeOk).1.headers ∧
      ("Access-Control-Allow-Methods", "GET,POST,OPTIONS") ∈
        (handle req file writeOk).1.headers ∧
      ("Access-Control-Allow-Headers", "Content-Type") ∈
        (handle req file writeOk).1.headers := by
  unfold handle
  split_ifs <;> simp [corsHeaders]

/-- C9: every OPTIONS request, whatever its path, gets a 204 response with
an empty body, and the counter file is untouched. -/
theorem options_204_empty (p : String) (file : FileContent)
    (writeOk : Bool) :
    handle ⟨"OPTIONS", p⟩ file writeOk =
      (⟨204, corsHeaders, Body.empty⟩, file) := by
  rfl

/-- C10: handling `GET /api/count` never modifies the data file: the file
state after the request equals the file state before. -/
theorem get_count_leaves_file (file : FileContent) (writeOk : Bool) :
    (handle countReq file writeOk).2 = file := by
  rfl

end Server
